import Mathlib

/-!
Verification of the bastion reconcile core
(`pkg/controller/bastion/actuator_reconcile.go`).

The Go code is shallowly embedded: pure helpers become Lean functions,
the cloud client interface `aliclient.ECS` becomes a record of
response-returning functions over an abstract provider-state type, and
Go's `(value, error)` returns become an explicit `Outcome` type.  Go
runtime panics (unguarded list indexing, nil-pointer dereference) are
made explicit as a `crash` outcome.  String fields compared with
`equality.Semantic.DeepEqual` are plain strings on both sides, so that
comparison is string equality.
-/

namespace AlicloudBastion

/-! ## Endpoint model (actuator_reconcile.go lines 36-48, 169-192) -/

/-- Models `corev1.LoadBalancerIngress`: the two fields read by this
code, with Go zero value `""` for an unset field. -/
structure LoadBalancerIngress where
  Hostname : String
  IP : String
deriving DecidableEq

/-- Models `bastionEndpoints`.  The Go fields are named `private` and
`public`, which are Lean keywords, hence `privateEp`/`publicEp`;
a `nil` pointer is `none`. -/
structure BastionEndpoints where
  privateEp : Option LoadBalancerIngress
  publicEp : Option LoadBalancerIngress
deriving DecidableEq

/-- `IngressReady` (lines 169-172): true if either an IP or a hostname
or both are set. -/
def IngressReady (ingress : Option LoadBalancerIngress) : Bool :=
  match ingress with
  | none => false
  | some i => i.Hostname != "" || i.IP != ""

/-- `(*bastionEndpoints).Ready` (lines 44-48): the receiver may be a
nil pointer, hence the `Option`. -/
def Ready (be : Option BastionEndpoints) : Bool :=
  match be with
  | none => false
  | some b => IngressReady b.privateEp && IngressReady b.publicEp

/-- `addressToIngress` (lines 174-192): returns `none` iff both
arguments are `none`; otherwise starts from the zero value and copies
whichever arguments are present. -/
def addressToIngress (dnsName ipAddress : Option String) : Option LoadBalancerIngress :=
  if ipAddress.isSome || dnsName.isSome then
    some { Hostname := dnsName.getD "", IP := ipAddress.getD "" }
  else
    none

/-! ## Security-group rules (actuator_reconcile.go lines 362-472)

The SDK request/permission structs carry many fields; embedded here are
the fields this file reads: the five compared by `ingressRuleEqual`,
the four compared by `egressRuleEqual`, and the egress-specific
destination/action fields `DestCidrIp` and `Policy` that exist on both
`ecs.AuthorizeSecurityGroupEgressRequest` and `ecs.Permission`. -/

/-- Models `ecs.AuthorizeSecurityGroupRequest` (the fields read here). -/
structure AuthorizeSecurityGroupRequest where
  Description : String
  IpProtocol : String
  PortRange : String
  SourceCidrIp : String
  Ipv6SourceCidrIp : String
deriving DecidableEq

/-- Models `ecs.AuthorizeSecurityGroupEgressRequest` (the fields read
here, plus the destination/action fields `DestCidrIp` and `Policy`). -/
structure AuthorizeSecurityGroupEgressRequest where
  Description : String
  IpProtocol : String
  PortRange : String
  SourceCidrIp : String
  DestCidrIp : String
  Policy : String
deriving DecidableEq

/-- Models `ecs.Permission` (the fields read here, plus `DestCidrIp`
and `Policy`). -/
structure Permission where
  Description : String
  IpProtocol : String
  PortRange : String
  SourceCidrIp : String
  Ipv6SourceCidrIp : String
  DestCidrIp : String
  Policy : String
deriving DecidableEq

/-- `ingressRuleEqual` (lines 396-418): five `DeepEqual` field checks
in sequence, all on string fields. -/
def ingressRuleEqual (a : AuthorizeSecurityGroupRequest) (b : Permission) : Bool :=
  a.Description == b.Description &&
  a.IpProtocol == b.IpProtocol &&
  a.PortRange == b.PortRange &&
  a.SourceCidrIp == b.SourceCidrIp &&
  a.Ipv6SourceCidrIp == b.Ipv6SourceCidrIp

/-- `egressRuleEqual` (lines 454-472): four `DeepEqual` field checks —
`Description`, `IpProtocol`, `PortRange`, `SourceCidrIp`.  The source
compares no destination (`DestCidrIp`) or action (`Policy`) field. -/
def egressRuleEqual (a : AuthorizeSecurityGroupEgressRequest) (b : Permission) : Bool :=
  a.Description == b.Description &&
  a.IpProtocol == b.IpProtocol &&
  a.PortRange == b.PortRange &&
  a.SourceCidrIp == b.SourceCidrIp

/-- `ingressRulesSymmetricDifference` (lines 362-394).  The Go loops
with a `found` flag and `break` are the `any`-inside-`filter` below:
`rulesToDelete` keeps the current rules matching no wanted rule,
`rulesToAdd` the wanted rules matching no current rule. -/
def ingressRulesSymmetricDifference (wantedIngressRules : List AuthorizeSecurityGroupRequest)
    (currentRules : List Permission) :
    List AuthorizeSecurityGroupRequest × List Permission :=
  let rulesToDelete :=
    currentRules.filter (fun currentRule =>
      !(wantedIngressRules.any (fun wantedRule => ingressRuleEqual wantedRule currentRule)))
  let rulesToAdd :=
    wantedIngressRules.filter (fun wantedRule =>
      !(currentRules.any (fun currentRule => ingressRuleEqual wantedRule currentRule)))
  (rulesToAdd, rulesToDelete)

/-- `egressRulesSymmetricDifference` (lines 420-452): same shape as the
ingress variant, with `egressRuleEqual`. -/
def egressRulesSymmetricDifference (wantedIngressRules : List AuthorizeSecurityGroupEgressRequest)
    (currentRules : List Permission) :
    List AuthorizeSecurityGroupEgressRequest × List Permission :=
  let rulesToDelete :=
    currentRules.filter (fun currentRule =>
      !(wantedIngressRules.any (fun wantedRule => egressRuleEqual wantedRule currentRule)))
  let rulesToAdd :=
    wantedIngressRules.filter (fun wantedRule =>
      !(currentRules.any (fun currentRule => egressRuleEqual wantedRule currentRule)))
  (rulesToAdd, rulesToDelete)

/-! ## Provider data model (the SDK response shapes this file reads) -/

/-- Models `ecs.Instance` (the fields read here).  `PrivateIpAddress`
flattens the Go nesting `VpcAttributes.PrivateIpAddress.IpAddress`. -/
structure Instance where
  InstanceName : String
  InstanceId : String
  Status : String
  PrivateIpAddress : List String
deriving DecidableEq

/-- Models `ecs.DescribeInstancesResponse`: the field flattens the Go
nesting `Instances.Instance`. -/
structure DescribeInstancesResponse where
  Instance : List Instance
deriving DecidableEq

/-- Models `ecs.RunInstancesResponse` as returned by
`CreateInstances`: the field flattens `InstanceIdSets.InstanceIdSet`. -/
structure CreateInstancesResponse where
  InstanceIdSet : List String
deriving DecidableEq

/-- Models `ecs.SecurityGroup` (the fields read here). -/
structure SecurityGroup where
  SecurityGroupName : String
  SecurityGroupId : String
deriving DecidableEq

/-- Models `ecs.DescribeSecurityGroupsResponse`: the field flattens
`SecurityGroups.SecurityGroup`. -/
structure DescribeSecurityGroupsResponse where
  SecurityGroup : List SecurityGroup
deriving DecidableEq

/-- Models `ecs.CreateSecurityGroupResponse`. -/
structure CreateSecurityGroupResponse where
  SecurityGroupId : String
deriving DecidableEq

/-- Innermost level of the instance-type availability nesting:
models `ecs.SupportedResource`. -/
structure SupportedResource where
  Status : String
  Value : String
deriving DecidableEq

/-- Models `ecs.AvailableResource`: the field flattens
`SupportedResources.SupportedResource`. -/
structure AvailableResource where
  SupportedResource : List SupportedResource
deriving DecidableEq

/-- Models `ecs.AvailableZone`: the field flattens
`AvailableResources.AvailableResource`. -/
structure AvailableZone where
  AvailableResource : List AvailableResource
deriving DecidableEq

/-- Models the value returned by `GetInstanceType` (an
`ecs.AvailableResource` tree): the field flattens
`AvailableZones.AvailableZone`. -/
structure InstanceTypeInfo where
  AvailableZone : List AvailableZone
deriving DecidableEq

/-- Models `gardencorev1beta1.MachineType` (only the name is read). -/
structure MachineType where
  Name : String
deriving DecidableEq

/-! ## Outcomes and effects -/

/-- Result of an embedded Go function: `ok` pairs a value with a `nil`
error, `error` is a non-nil Go error return, `crash` is a Go runtime
panic (nil-pointer dereference or out-of-range index), which in Go is
not a return value at all — it aborts the process. -/
inductive Outcome (α : Type) where
  | ok (a : α) : Outcome α
  | error (msg : String) : Outcome α
  | crash (msg : String) : Outcome α
deriving DecidableEq

/-- Observable side effects of one embedded call: in-process sleeps and
provider creation calls.  Returned as an explicit trace. -/
inductive Effect where
  | sleep (seconds : Nat) : Effect
  | createSecurityGroupCall : Effect
  | createInstanceCall : Effect
deriving DecidableEq

/-- One step of `Reconcile`: either the pass proceeds to the next step,
or it returns a `ctrlerror.RequeueAfterError` (a retry signal with a
wait in seconds and a cause), or it returns an ordinary error, or the
process panics. -/
inductive StepOutcome where
  | proceed : StepOutcome
  | retryAfter (seconds : Nat) (cause : String) : StepOutcome
  | fail (msg : String) : StepOutcome
  | crash (msg : String) : StepOutcome
deriving DecidableEq

/-- Terminal result of the endpoint step of `Reconcile` (lines
148-166): publish the public endpoint, retry, fail, or panic. -/
inductive ReconcileStepResult where
  | publishEndpoint (publicEp : Option LoadBalancerIngress) : ReconcileStepResult
  | retryAfter (seconds : Nat) (cause : String) : ReconcileStepResult
  | fail (msg : String) : ReconcileStepResult
  | crash (msg : String) : ReconcileStepResult
deriving DecidableEq

/-! ## The client interface

Models the `aliclient.ECS` operations this file uses, over an abstract
provider-state type `σ`.  Lookups are read-only; creations return the
successor state.  A lookup result is `Except` (the Go error) of
`Option` (the Go response pointer, which may be nil). -/

/-- The slice of the `aliclient.ECS` interface consumed by
`actuator_reconcile.go`, as a record of functions over a provider
state `σ`.  `createInstances` takes the seven string arguments of
`CreateInstances` in source order. -/
structure ECS (σ : Type) where
  getInstances : σ → String → Except String (Option DescribeInstancesResponse)
  createInstances : σ → String → String → String → String → String → String → String →
    σ × Except String CreateInstancesResponse
  getSecurityGroup : σ → String → Except String (Option DescribeSecurityGroupsResponse)
  createSecurityGroups : σ → String → String → σ × Except String CreateSecurityGroupResponse
  getInstanceType : σ → Nat → String → Except String (Option InstanceTypeInfo)

/-! ## Readiness probe (lines 344-360 and the call site 126-136) -/

/-- `isInstanceReady` (lines 344-360).  Mirrors Go's `(bool, error)`
return as `Bool × Option String` and records the `time.Sleep(10s)` the
source performs in the not-Running branch as an explicit effect. -/
def isInstanceReady {σ : Type} (c : ECS σ) (s : σ) (bastionInstanceName : String) :
    List Effect × Bool × Option String :=
  match c.getInstances s bastionInstanceName with
  | .error e => ([], false, some e)
  | .ok none => ([], false, some "bastion instance not yet created")
  | .ok (some response) =>
    match response.Instance.head? with
    | none => ([], false, some "bastion instance not yet created")
    | some inst =>
      if inst.Status == "Running" then ([], true, none)
      else ([Effect.sleep 10], false, some "bastion instance not yet in Running status")

/-- The instance-readiness step of `Reconcile` (lines 126-136): wrap a
non-nil error from `isInstanceReady`, otherwise requeue after 10
seconds when not ready, otherwise proceed. -/
def reconcileInstanceReadinessStep {σ : Type} (c : ECS σ) (s : σ)
    (bastionInstanceName : String) : List Effect × StepOutcome :=
  match isInstanceReady c s bastionInstanceName with
  | (effs, _, some e) => (effs, .fail ("failed to check for bastion instance: " ++ e))
  | (effs, ready, none) =>
    if !ready then (effs, .retryAfter 10 "bastion instance not ready yet")
    else (effs, .proceed)

/-! ## Endpoint discovery (lines 194-221 and the call site 148-166) -/

/-- `getInstanceEndpoints` (lines 194-221).  The read of
`instance.VpcAttributes.PrivateIpAddress.IpAddress[0]` at line 210 is
unguarded in the source, so an empty private-IP list is a runtime
panic, embedded as `crash`. -/
def getInstanceEndpoints {σ : Type} (c : ECS σ) (s : σ) (bastionInstanceName ip : String) :
    Outcome BastionEndpoints :=
  match c.getInstances s bastionInstanceName with
  | .error e => .error e
  | .ok none => .error "compute instance can't be nil"
  | .ok (some response) =>
    match response.Instance.head? with
    | none => .error "compute instance not ready yet"
    | some inst =>
      if inst.Status != "Running" then .error "compute instance not ready yet"
      else
        match inst.PrivateIpAddress.head? with
        | none => .crash "runtime error: index out of range"
        | some internalIP =>
          .ok { privateEp := addressToIngress none (some internalIP),
                publicEp := addressToIngress none (some ip) }

/-- The endpoint step of `Reconcile` (lines 148-166): fetch the
endpoints, requeue after 5 seconds when they are not `Ready`,
otherwise publish the public endpoint on the status. -/
def reconcileEndpointsStep {σ : Type} (c : ECS σ) (s : σ)
    (bastionInstanceName publicIP : String) : ReconcileStepResult :=
  match getInstanceEndpoints c s bastionInstanceName publicIP with
  | .error e => .fail e
  | .crash m => .crash m
  | .ok endpoints =>
    if !(Ready (some endpoints)) then
      .retryAfter 5 "bastion instance has no public/private endpoints yet"
    else
      .publishEndpoint endpoints.publicEp

/-! ## Resource ensurers (lines 223-262) -/

/-- `ensureComputeInstance` (lines 223-241).  The source does not
nil-check the lookup response (field access on a nil pointer panics)
and reads `instance.InstanceIdSets.InstanceIdSet[0]` of the creation
response unguarded (line 240), hence the two `crash` branches.  The
trace records whether `CreateInstances` was called. -/
def ensureComputeInstance {σ : Type} (c : ECS σ) (s : σ)
    (bastionInstanceName securityGroupID imageID vSwitchId zoneID instanceTypeID userData : String) :
    σ × List Effect × Outcome String :=
  match c.getInstances s bastionInstanceName with
  | .error e => (s, [], .error e)
  | .ok none => (s, [], .crash "runtime error: invalid memory address or nil pointer dereference")
  | .ok (some response) =>
    let create := fun (_ : Unit) =>
      let (s2, created) := c.createInstances s bastionInstanceName securityGroupID imageID
        vSwitchId zoneID instanceTypeID userData
      match created with
      | .error e => (s2, [Effect.createInstanceCall], Outcome.error e)
      | .ok cr =>
        match cr.InstanceIdSet.head? with
        | none => (s2, [Effect.createInstanceCall],
            Outcome.crash "runtime error: index out of range")
        | some createdId => (s2, [Effect.createInstanceCall], Outcome.ok createdId)
    match response.Instance.head? with
    | some inst =>
      if inst.InstanceName == bastionInstanceName then (s, [], .ok inst.InstanceId)
      else create ()
    | none => create ()

/-- `ensureSecurityGroup` (lines 243-262): same lookup-first shape,
returning the first found group's id when its name matches, otherwise
creating the group.  The source does not nil-check the lookup
response. -/
def ensureSecurityGroup {σ : Type} (c : ECS σ) (s : σ)
    (securityGroupName vpcID : String) : σ × List Effect × Outcome String :=
  match c.getSecurityGroup s securityGroupName with
  | .error e => (s, [], .error e)
  | .ok none => (s, [], .crash "runtime error: invalid memory address or nil pointer dereference")
  | .ok (some response) =>
    let create := fun (_ : Unit) =>
      let (s2, created) := c.createSecurityGroups s vpcID securityGroupName
      match created with
      | .error e => (s2, [Effect.createSecurityGroupCall], Outcome.error e)
      | .ok cr => (s2, [Effect.createSecurityGroupCall], Outcome.ok cr.SecurityGroupId)
    match response.SecurityGroup.head? with
    | some g =>
      if g.SecurityGroupName == securityGroupName then (s, [], .ok g.SecurityGroupId)
      else create ()
    | none => create ()

/-! ## Instance-type selection (Reconcile lines 88-114) -/

/-- The availability check of lines 95-104 as one function: `none` iff
the Go compound condition at lines 95-99 makes the loop `continue`
(nil response, an empty list at any nesting level, or first status not
`"Available"`); otherwise the `Value` the loop assigns at line 103. -/
def probeValue (info : Option InstanceTypeInfo) : Option String :=
  match info with
  | none => none
  | some it =>
    match it.AvailableZone.head? with
    | none => none
    | some z =>
      match z.AvailableResource.head? with
      | none => none
      | some r =>
        match r.SupportedResource.head? with
        | none => none
        | some sr => if sr.Status == "Available" then some sr.Value else none

/-- The `for cores := 1; cores <= 2` loop of lines 88-105, unrolled:
returns the first probed `Value`, an error from `GetInstanceType`, or
`""` (the Go zero value of `instanceTypeId`) when no probe succeeds. -/
def bastionInstanceTypeLoop {σ : Type} (c : ECS σ) (s : σ) (zoneID : String) :
    Except String String :=
  match c.getInstanceType s 1 zoneID with
  | .error e => .error e
  | .ok r1 =>
    match probeValue r1 with
    | some v => .ok v
    | none =>
      match c.getInstanceType s 2 zoneID with
      | .error e => .error e
      | .ok r2 =>
        match probeValue r2 with
        | some v => .ok v
        | none => .ok ""

/-- Lines 88-114 of `Reconcile`: probe the instance types, then fall
back to the first machine type of the cloud profile when the probed id
is still `""`, erroring when the profile declares no machine types. -/
def determineInstanceTypeId {σ : Type} (c : ECS σ) (s : σ) (zoneID : String)
    (machineTypes : List MachineType) : Except String String :=
  match bastionInstanceTypeLoop c s zoneID with
  | .error e => .error e
  | .ok instanceTypeId =>
    if instanceTypeId == "" then
      match machineTypes with
      | [] => .error "failed to determine instanceTypeId from cloud profile as fallback. Machine types missing from cloud profile"
      | mt :: _ => .ok mt.Name
    else
      .ok instanceTypeId

/-! ## A provider-state client

The concrete client implementation lives in `pkg/alicloud/client` of
the repository, outside the file under verification; it is modelled
here from the spec's provider contract (spec section 6). -/

/-- Modelled from the spec: the provider's durable state — the
security groups and instances it contains — plus a counter for fresh
identifiers (spec section 3: resources are "identified by name
(idempotency key) and provider-assigned id"). -/
structure ECSState where
  securityGroups : List SecurityGroup
  instances : List Instance
  nextId : Nat
deriving DecidableEq

/-- Modelled from the spec: `LookupSecurityGroup(name)` /
`LookupInstance(name)` return the resources of the given name, and
`CreateSecurityGroup` / `CreateInstance` register a new resource under
the requested name with a fresh provider-assigned id (spec section 6;
a created instance starts Pending with no private IP yet, spec
sections 3 and 8). -/
def aliECS : ECS ECSState where
  getInstances := fun st name =>
    .ok (some { Instance := st.instances.filter (fun i => i.InstanceName == name) })
  createInstances := fun st name _ _ _ _ _ _ =>
    let newId := "i-" ++ toString st.nextId
    ({ st with
        instances := st.instances ++
          [{ InstanceName := name, InstanceId := newId, Status := "Pending",
             PrivateIpAddress := [] }],
        nextId := st.nextId + 1 },
     .ok { InstanceIdSet := [newId] })
  getSecurityGroup := fun st name =>
    .ok (some { SecurityGroup := st.securityGroups.filter (fun g => g.SecurityGroupName == name) })
  createSecurityGroups := fun st _ name =>
    let newId := "sg-" ++ toString st.nextId
    ({ st with
        securityGroups := st.securityGroups ++
          [{ SecurityGroupName := name, SecurityGroupId := newId }],
        nextId := st.nextId + 1 },
     .ok { SecurityGroupId := newId })
  getInstanceType := fun _ _ _ => .ok none

/-! ## Status publication (Reconcile lines 162-166) -/

/-- Models `extensionsv1alpha1.BastionStatus`: the `Ingress` field the
source assigns at line 165, plus representative further fields of the
persisted status that the patch must not clobber. -/
structure BastionStatus where
  Ingress : Option LoadBalancerIngress
  Conditions : List String
  LastError : Option String
  LastOperation : Option String
  ObservedGeneration : Option Int
  ProviderStatus : Option String
deriving DecidableEq

/-- A merge patch over `BastionStatus`: `some v` sets the field to
`v`, `none` leaves the persisted field untouched. -/
structure StatusMergePatch where
  Ingress : Option (Option LoadBalancerIngress)
  Conditions : Option (List String)
  LastError : Option (Option String)
  LastOperation : Option (Option String)
  ObservedGeneration : Option (Option Int)
  ProviderStatus : Option (Option String)
deriving DecidableEq

/-- Modelled from the spec: the host framework's "merge-patch status"
capability (spec section 9) behind `client.MergeFrom` — the patch
contains exactly the fields on which the modified object differs from
the deep-copied base. -/
def computeMergeFrom (base modified : BastionStatus) : StatusMergePatch where
  Ingress := if base.Ingress = modified.Ingress then none else some modified.Ingress
  Conditions := if base.Conditions = modified.Conditions then none else some modified.Conditions
  LastError := if base.LastError = modified.LastError then none else some modified.LastError
  LastOperation :=
    if base.LastOperation = modified.LastOperation then none else some modified.LastOperation
  ObservedGeneration :=
    if base.ObservedGeneration = modified.ObservedGeneration then none
    else some modified.ObservedGeneration
  ProviderStatus :=
    if base.ProviderStatus = modified.ProviderStatus then none else some modified.ProviderStatus

/-- Modelled from the spec: applying a merge patch to the caller's
persisted status — a partial update, every field absent from the patch
keeps its persisted value (spec sections 8 and 9). -/
def applyMergePatch (patch : StatusMergePatch) (persisted : BastionStatus) : BastionStatus where
  Ingress := patch.Ingress.getD persisted.Ingress
  Conditions := patch.Conditions.getD persisted.Conditions
  LastError := patch.LastError.getD persisted.LastError
  LastOperation := patch.LastOperation.getD persisted.LastOperation
  ObservedGeneration := patch.ObservedGeneration.getD persisted.ObservedGeneration
  ProviderStatus := patch.ProviderStatus.getD persisted.ProviderStatus

/-- Lines 162-166 of `Reconcile`: `patch := client.MergeFrom(bastion.DeepCopy())`,
then `bastion.Status.Ingress = endpoints.public`, then `Status().Patch`.
The produced patch is the merge diff of the status against a copy that
differs only in `Ingress`. -/
def publishStatus (bastionStatus : BastionStatus)
    (publicEp : Option LoadBalancerIngress) : StatusMergePatch :=
  computeMergeFrom bastionStatus { bastionStatus with Ingress := publicEp }

/-! ## Rule-diff specification and generic facts -/

/-- The correctness contract of a symmetric-difference computation
under a heterogeneous rule-equality predicate `eq`: nothing added is
already observed, everything deleted is observed and unwanted, every
kept observed rule and every wanted rule are accounted for, and a
fully-matching pair of sets yields empty diffs. -/
def SymDiffSpec {α β : Type} (eq : α → β → Bool) (W : List α) (O : List β)
    (toAdd : List α) (toDelete : List β) : Prop :=
  (∀ a ∈ toAdd, ∀ o ∈ O, eq a o = false) ∧
  (∀ d ∈ toDelete, d ∈ O) ∧
  (∀ d ∈ toDelete, ∀ w ∈ W, eq w d = false) ∧
  (∀ o ∈ O, o ∉ toDelete → ∃ w ∈ W, eq w o = true) ∧
  (∀ a ∈ toAdd, a ∈ W) ∧
  (∀ w ∈ W, (∃ o ∈ O, o ∉ toDelete ∧ eq w o = true) ∨ w ∈ toAdd) ∧
  ((∀ w ∈ W, ∃ o ∈ O, eq w o = true) → (∀ o ∈ O, ∃ w ∈ W, eq w o = true) →
    toAdd = [] ∧ toDelete = [])

/-- Membership in a `filter` that keeps the elements matching nothing
in a second list. -/
theorem mem_filterNotAny {α β : Type} (eq : α → β → Bool) (l : List α) (l2 : List β) (x : α) :
    x ∈ l.filter (fun a => !(l2.any (fun b => eq a b))) ↔
      x ∈ l ∧ ∀ b ∈ l2, eq x b = false := by
  simp [List.mem_filter]

/-- Such a filter is empty when every element has a match. -/
theorem filterNotAny_eq_nil {α β : Type} (eq : α → β → Bool) (l : List α) (l2 : List β)
    (h : ∀ a ∈ l, ∃ b ∈ l2, eq a b = true) :
    l.filter (fun a => !(l2.any (fun b => eq a b))) = [] := by
  rw [List.filter_eq_nil_iff]
  intro a ha
  simp only [Bool.not_eq_true', List.any_eq_false, not_forall]
  obtain ⟨b, hb, heq⟩ := h a ha
  exact ⟨b, hb, by simp [heq]⟩

/-- The two filters used by both symmetric-difference functions meet
`SymDiffSpec`, for any equality predicate. -/
theorem symDiffSpec_filter {α β : Type} (eq : α → β → Bool) (W : List α) (O : List β) :
    SymDiffSpec eq W O
      (W.filter (fun w => !(O.any (fun o => eq w o))))
      (O.filter (fun o => !(W.any (fun w => eq w o)))) := by
  refine ⟨?_, ?_, ?_, ?_, ?_, ?_, ?_⟩
  · intro a ha o ho
    exact ((mem_filterNotAny eq W O a).mp ha).2 o ho
  · intro d hd
    exact ((mem_filterNotAny (fun o w => eq w o) O W d).mp hd).1
  · intro d hd w hw
    exact ((mem_filterNotAny (fun o w => eq w o) O W d).mp hd).2 w hw
  · intro o ho hnd
    by_contra hno
    push_neg at hno
    refine hnd ((mem_filterNotAny (fun o w => eq w o) O W o).mpr ⟨ho, ?_⟩)
    intro w hw
    exact Bool.eq_false_of_not_eq_true (by simpa using hno w hw)
  · intro a ha
    exact ((mem_filterNotAny eq W O a).mp ha).1
  · intro w hw
    by_cases hmatch : ∃ o ∈ O, eq w o = true
    · obtain ⟨o, ho, heq⟩ := hmatch
      refine Or.inl ⟨o, ho, ?_, heq⟩
      intro hmem
      have h2 := ((mem_filterNotAny (fun o w => eq w o) O W o).mp hmem).2 w hw
      simp [h2] at heq
    · refine Or.inr ((mem_filterNotAny eq W O w).mpr ⟨hw, ?_⟩)
      intro o ho
      by_contra hne
      exact hmatch ⟨o, ho, by simpa using hne⟩
  · intro hWO hOW
    exact ⟨filterNotAny_eq_nil eq W O hWO, filterNotAny_eq_nil (fun o w => eq w o) O W hOW⟩

/-- C1: for every wanted list W and observed list O, both
`ingressRulesSymmetricDifference` and `egressRulesSymmetricDifference`
return `(toAdd, toDelete)` with: no element of toAdd equal (under the
respective rule-equality predicate) to any element of O; every element
of toDelete an element of O and equal to no element of W; the kept
observed rules together with toAdd set-equal to W up to the predicate;
and W matching O both ways yields empty toAdd and empty toDelete
(which covers empty W and empty O as well). -/
theorem symmetricDifference_correct :
    (∀ W O, SymDiffSpec ingressRuleEqual W O
        (ingressRulesSymmetricDifference W O).1 (ingressRulesSymmetricDifference W O).2) ∧
    (∀ W O, SymDiffSpec egressRuleEqual W O
        (egressRulesSymmetricDifference W O).1 (egressRulesSymmetricDifference W O).2) :=
  ⟨fun W O => symDiffSpec_filter ingressRuleEqual W O,
   fun W O => symDiffSpec_filter egressRuleEqual W O⟩

/-- An ingress rule and a permission that match on all five compared
fields, used to instantiate `symmetricDifference_correct`. -/
def sampleIngressRule : AuthorizeSecurityGroupRequest :=
  { Description := "SSH allowed ports", IpProtocol := "tcp", PortRange := "22/22",
    SourceCidrIp := "203.0.113.0/24", Ipv6SourceCidrIp := "" }

/-- The observed counterpart of `sampleIngressRule`. -/
def sampleIngressPermission : Permission :=
  { Description := "SSH allowed ports", IpProtocol := "tcp", PortRange := "22/22",
    SourceCidrIp := "203.0.113.0/24", Ipv6SourceCidrIp := "",
    DestCidrIp := "", Policy := "" }

/-- C1 witness: concrete fully-equal singleton sets produce empty
toAdd and toDelete. -/
theorem symmetricDifference_correct_witness :
    (ingressRulesSymmetricDifference [sampleIngressRule] [sampleIngressPermission]).1 = [] ∧
    (ingressRulesSymmetricDifference [sampleIngressRule] [sampleIngressPermission]).2 = [] :=
  (symmetricDifference_correct.1 [sampleIngressRule]
      [sampleIngressPermission]).2.2.2.2.2.2
    (by decide) (by decide)

/-- C3 counterexample: an egress request and an observed permission
that agree on description, protocol, port range and source CIDR but
differ in both the destination CIDR and the allow/deny action are
nevertheless reported equal by `egressRuleEqual`. -/
theorem egressRuleEqual_ignores_dest_and_action :
    egressRuleEqual
      { Description := "SSH allowed ports", IpProtocol := "tcp", PortRange := "22/22",
        SourceCidrIp := "10.0.0.5/32", DestCidrIp := "192.168.0.0/16", Policy := "Accept" }
      { Description := "SSH allowed ports", IpProtocol := "tcp", PortRange := "22/22",
        SourceCidrIp := "10.0.0.5/32", Ipv6SourceCidrIp := "",
        DestCidrIp := "0.0.0.0/0", Policy := "Drop" } = true ∧
    ("192.168.0.0/16" : String) ≠ "0.0.0.0/0" ∧ ("Accept" : String) ≠ "Drop" := by
  refine ⟨rfl, ?_, ?_⟩ <;> decide

/-- C3 amended: `egressRuleEqual` returns true iff description,
protocol, port range and source CIDR each match exactly; the
egress-specific destination CIDR and allow/deny action fields are not
compared, so a difference there alone leaves the rules equal. -/
theorem egressRuleEqual_spec :
    ∀ (a : AuthorizeSecurityGroupEgressRequest) (b : Permission),
      egressRuleEqual a b = true ↔
        (a.Description = b.Description ∧ a.IpProtocol = b.IpProtocol ∧
         a.PortRange = b.PortRange ∧ a.SourceCidrIp = b.SourceCidrIp) := by
  intro a b
  simp [egressRuleEqual, Bool.and_eq_true, beq_iff_eq, and_assoc]

/-- C6: `addressToIngress` returns `none` iff both inputs are absent
and otherwise populates exactly the present fields (an absent field
stays at the zero value `""`); `Ready` is true iff both sides are
non-absent and each has a non-empty hostname or IP. -/
theorem endpoint_model_spec :
    (∀ dnsName ipAddress : Option String,
      (addressToIngress dnsName ipAddress = none ↔ dnsName = none ∧ ipAddress = none) ∧
      (∀ i, addressToIngress dnsName ipAddress = some i →
        i.Hostname = dnsName.getD "" ∧ i.IP = ipAddress.getD "")) ∧
    (∀ be : Option BastionEndpoints,
      Ready be = true ↔ ∃ b, be = some b ∧
        IngressReady b.privateEp = true ∧ IngressReady b.publicEp = true) ∧
    (∀ o : Option LoadBalancerIngress,
      IngressReady o = true ↔ ∃ i, o = some i ∧ (i.Hostname ≠ "" ∨ i.IP ≠ "")) := by
  refine ⟨?_, ?_, ?_⟩
  · intro dns ip
    constructor
    · cases dns <;> cases ip <;> simp [addressToIngress]
    · intro i h
      cases dns with
      | none =>
        cases ip with
        | none => simp [addressToIngress] at h
        | some v =>
          have hi : i = { Hostname := "", IP := v } := by
            simpa [addressToIngress] using h.symm
          subst hi; simp
      | some d =>
        cases ip with
        | none =>
          have hi : i = { Hostname := d, IP := "" } := by
            simpa [addressToIngress] using h.symm
          subst hi; simp
        | some v =>
          have hi : i = { Hostname := d, IP := v } := by
            simpa [addressToIngress] using h.symm
          subst hi; simp
  · intro be
    cases be with
    | none => simp [Ready]
    | some b => simp [Ready, Bool.and_eq_true]
  · intro o
    cases o with
    | none => simp [IngressReady]
    | some i => simp [IngressReady, Bool.or_eq_true, bne_iff_ne]

/-- C6 witness: the spec's worked example — private `10.0.0.5` and
public `1.2.3.4` are Ready; a nil private side is not. -/
theorem endpoint_model_spec_witness :
    (addressToIngress none (some "10.0.0.5") = none ↔
      (none : Option String) = none ∧ (some "10.0.0.5" : Option String) = none) ∧
    (IngressReady (addressToIngress none (some "10.0.0.5")) = true ↔
      ∃ i, addressToIngress none (some "10.0.0.5") = some i ∧
        (i.Hostname ≠ "" ∨ i.IP ≠ "")) :=
  ⟨(endpoint_model_spec.1 none (some "10.0.0.5")).1,
   endpoint_model_spec.2.2 (addressToIngress none (some "10.0.0.5"))⟩

/-! ## Concrete test clients -/

/-- A stateless client returning fixed responses, to evaluate the
embedded functions at concrete provider behaviours. -/
def mkECS (instResp : Except String (Option DescribeInstancesResponse))
    (createIds : List String)
    (sgResp : Except String (Option DescribeSecurityGroupsResponse))
    (sgCreateId : String)
    (itResp : Nat → Except String (Option InstanceTypeInfo)) : ECS Unit where
  getInstances := fun _ _ => instResp
  createInstances := fun s _ _ _ _ _ _ _ => (s, .ok { InstanceIdSet := createIds })
  getSecurityGroup := fun _ _ => sgResp
  createSecurityGroups := fun s _ _ => (s, .ok { SecurityGroupId := sgCreateId })
  getInstanceType := fun _ cores _ => itResp cores

/-- A bastion instance still in status `Pending`. -/
def pendingInstance : Instance :=
  { InstanceName := "bastion-1", InstanceId := "i-1", Status := "Pending",
    PrivateIpAddress := ["10.0.0.5"] }

/-- A client whose instance lookup finds only `pendingInstance`. -/
def pendingClient : ECS Unit :=
  mkECS (.ok (some { Instance := [pendingInstance] })) []
    (.ok (some { SecurityGroup := [] })) "sg-0" (fun _ => .ok none)

/-- A client whose instance lookup finds nothing. -/
def emptyClient : ECS Unit :=
  mkECS (.ok (some { Instance := [] })) []
    (.ok (some { SecurityGroup := [] })) "sg-0" (fun _ => .ok none)

/-- C2 (evaluation of the defect): at the instance-readiness step of
`Reconcile`, an instance found with status `Pending` produces an
ordinary error (after an in-process 10-second sleep) — not the
claimed 10-second retry signal with no error — because
`isInstanceReady` never returns `(false, nil)`, leaving the
`RequeueAfterError` branch of lines 131-136 unreachable; an instance
not found at all produces an error, as the claim states; and no
effect/retry pair is ever the outcome for the Pending instance. -/
theorem instanceReadiness_pending_yields_error :
    reconcileInstanceReadinessStep pendingClient () "bastion-1" =
      ([Effect.sleep 10],
       .fail "failed to check for bastion instance: bastion instance not yet in Running status") ∧
    reconcileInstanceReadinessStep emptyClient () "bastion-1" =
      ([], .fail "failed to check for bastion instance: bastion instance not yet created") ∧
    (∀ effs seconds cause,
      reconcileInstanceReadinessStep pendingClient () "bastion-1" ≠
        (effs, .retryAfter seconds cause)) := by
  refine ⟨rfl, rfl, ?_⟩
  intro effs seconds cause h
  have h2 := congrArg Prod.snd h
  exact StepOutcome.noConfusion h2

/-- C4 (evaluation of the defect): the instance-readiness probe
performs a blocking in-process wait — the `time.Sleep(10 * time.Second)`
of line 358 — when the instance exists but is not yet Running,
contradicting the claim that a not-ready condition is represented only
as a returned retry value. -/
theorem isInstanceReady_sleeps_in_process :
    (isInstanceReady pendingClient () "bastion-1").1 = [Effect.sleep 10] ∧
    (isInstanceReady pendingClient () "bastion-1").2 =
      (false, some "bastion instance not yet in Running status") :=
  ⟨rfl, rfl⟩

/-! ## Ensure-operation lemmas (C5) -/

/-- When the by-name lookup against the provider state is non-empty,
`ensureSecurityGroup` takes the found branch: no state change, no
creation call, the first found group's id. -/
theorem ensureSecurityGroup_found_aux (st : ECSState) (name vpcID : String)
    (g0 : SecurityGroup) (t : List SecurityGroup)
    (hl : st.securityGroups.filter (fun g => g.SecurityGroupName == name) = g0 :: t) :
    ensureSecurityGroup aliECS st name vpcID = (st, [], .ok g0.SecurityGroupId) := by
  have hg0 : g0 ∈ st.securityGroups.filter (fun g => g.SecurityGroupName == name) := by
    rw [hl]; exact List.mem_cons_self _ _
  have hbeq : (g0.SecurityGroupName == name) = true := (List.mem_filter.mp hg0).2
  simp [ensureSecurityGroup, aliECS, hl, hbeq]

/-- Same for `ensureComputeInstance`: a non-empty by-name lookup takes
the found branch. -/
theorem ensureComputeInstance_found_aux (st : ECSState)
    (name sgID imgID vswID zoneID typeID userData : String)
    (i0 : Instance) (t : List Instance)
    (hl : st.instances.filter (fun i => i.InstanceName == name) = i0 :: t) :
    ensureComputeInstance aliECS st name sgID imgID vswID zoneID typeID userData =
      (st, [], .ok i0.InstanceId) := by
  have hi0 : i0 ∈ st.instances.filter (fun i => i.InstanceName == name) := by
    rw [hl]; exact List.mem_cons_self _ _
  have hbeq : (i0.InstanceName == name) = true := (List.mem_filter.mp hi0).2
  simp [ensureComputeInstance, aliECS, hl, hbeq]

/-- C5: against a provider state that already contains a security
group (resp. a compute instance) of the requested name, the ensure
operation leaves the provider state unchanged, performs zero creation
calls, and returns the id of the (first) existing resource, so a
second identical call returns the same id; a creation call happens
only when the by-name lookup finds no matching resource. -/
theorem ensure_operations_idempotent :
    ∀ (st : ECSState) (name vpcID sgID imgID vswID zoneID typeID userData : String),
      ((∃ g ∈ st.securityGroups, g.SecurityGroupName = name) →
        (ensureSecurityGroup aliECS st name vpcID).1 = st ∧
        (ensureSecurityGroup aliECS st name vpcID).2.1 = [] ∧
        (∃ g ∈ st.securityGroups, g.SecurityGroupName = name ∧
          (ensureSecurityGroup aliECS st name vpcID).2.2 = .ok g.SecurityGroupId) ∧
        (ensureSecurityGroup aliECS (ensureSecurityGroup aliECS st name vpcID).1
            name vpcID).2.2 =
          (ensureSecurityGroup aliECS st name vpcID).2.2) ∧
      ((ensureSecurityGroup aliECS st name vpcID).2.1 ≠ [] →
        ∀ g ∈ st.securityGroups, g.SecurityGroupName ≠ name) ∧
      ((∃ i ∈ st.instances, i.InstanceName = name) →
        (ensureComputeInstance aliECS st name sgID imgID vswID zoneID typeID userData).1 = st ∧
        (ensureComputeInstance aliECS st name sgID imgID vswID zoneID typeID userData).2.1 = [] ∧
        (∃ i ∈ st.instances, i.InstanceName = name ∧
          (ensureComputeInstance aliECS st name sgID imgID vswID zoneID typeID
              userData).2.2 = .ok i.InstanceId) ∧
        (ensureComputeInstance aliECS
            (ensureComputeInstance aliECS st name sgID imgID vswID zoneID typeID userData).1
            name sgID imgID vswID zoneID typeID userData).2.2 =
          (ensureComputeInstance aliECS st name sgID imgID vswID zoneID typeID
              userData).2.2) ∧
      ((ensureComputeInstance aliECS st name sgID imgID vswID zoneID typeID
          userData).2.1 ≠ [] →
        ∀ i ∈ st.instances, i.InstanceName ≠ name) := by
  intro st name vpcID sgID imgID vswID zoneID typeID userData
  have sgFound : (∃ g ∈ st.securityGroups, g.SecurityGroupName = name) →
      ∃ g0 t, st.securityGroups.filter (fun g => g.SecurityGroupName == name) = g0 :: t := by
    rintro ⟨g, hg, hname⟩
    have hmem : g ∈ st.securityGroups.filter (fun g => g.SecurityGroupName == name) :=
      List.mem_filter.mpr ⟨hg, by simp [hname]⟩
    cases hfl : st.securityGroups.filter (fun g => g.SecurityGroupName == name) with
    | nil => rw [hfl] at hmem; cases hmem
    | cons g0 t => exact ⟨g0, t, rfl⟩
  have instFound : (∃ i ∈ st.instances, i.InstanceName = name) →
      ∃ i0 t, st.instances.filter (fun i => i.InstanceName == name) = i0 :: t := by
    rintro ⟨i, hi, hname⟩
    have hmem : i ∈ st.instances.filter (fun i => i.InstanceName == name) :=
      List.mem_filter.mpr ⟨hi, by simp [hname]⟩
    cases hfl : st.instances.filter (fun i => i.InstanceName == name) with
    | nil => rw [hfl] at hmem; cases hmem
    | cons i0 t => exact ⟨i0, t, rfl⟩
  refine ⟨?_, ?_, ?_, ?_⟩
  · intro h
    obtain ⟨g0, t, hfl⟩ := sgFound h
    have heq := ensureSecurityGroup_found_aux st name vpcID g0 t hfl
    have hg0 : g0 ∈ st.securityGroups ∧ (g0.SecurityGroupName == name) = true :=
      List.mem_filter.mp (by rw [hfl]; exact List.mem_cons_self _ _)
    rw [heq]
    exact ⟨rfl, rfl, ⟨g0, hg0.1, by simpa using hg0.2, rfl⟩, by rw [heq]⟩
  · intro hne g hg hname
    obtain ⟨g0, t, hfl⟩ := sgFound ⟨g, hg, hname⟩
    have heq := ensureSecurityGroup_found_aux st name vpcID g0 t hfl
    rw [heq] at hne
    exact hne rfl
  · intro h
    obtain ⟨i0, t, hfl⟩ := instFound h
    have heq := ensureComputeInstance_found_aux st name sgID imgID vswID zoneID typeID
      userData i0 t hfl
    have hi0 : i0 ∈ st.instances ∧ (i0.InstanceName == name) = true :=
      List.mem_filter.mp (by rw [hfl]; exact List.mem_cons_self _ _)
    rw [heq]
    exact ⟨rfl, rfl, ⟨i0, hi0.1, by simpa using hi0.2, rfl⟩, by rw [heq]⟩
  · intro hne i hi hname
    obtain ⟨i0, t, hfl⟩ := instFound ⟨i, hi, hname⟩
    have heq := ensureComputeInstance_found_aux st name sgID imgID vswID zoneID typeID
      userData i0 t hfl
    rw [heq] at hne
    exact hne rfl

/-- A provider state already containing the bastion security group and
a Running bastion instance. -/
def sampleState : ECSState :=
  { securityGroups := [{ SecurityGroupName := "bastion-sg", SecurityGroupId := "sg-1" }],
    instances := [{ InstanceName := "bastion-1", InstanceId := "i-1", Status := "Running",
                    PrivateIpAddress := ["10.0.0.5"] }],
    nextId := 2 }

/-- C5 witness: against `sampleState`, ensuring the already-present
security group and instance issues zero creation calls and returns
the existing ids. -/
theorem ensure_operations_idempotent_witness :
    ((ensureSecurityGroup aliECS sampleState "bastion-sg" "vpc-1").2.1 = [] ∧
      (ensureSecurityGroup aliECS sampleState "bastion-sg" "vpc-1").1 = sampleState) ∧
    ((ensureComputeInstance aliECS sampleState "bastion-1" "sg-1" "img" "vsw" "z"
        "ecs.t6" "dXNlcg==").2.1 = [] ∧
      (ensureComputeInstance aliECS sampleState "bastion-1" "sg-1" "img" "vsw" "z"
        "ecs.t6" "dXNlcg==").1 = sampleState) :=
  have h1 := (ensure_operations_idempotent sampleState "bastion-sg" "vpc-1" "sg-1" "img"
      "vsw" "z" "ecs.t6" "dXNlcg==").1
    ⟨{ SecurityGroupName := "bastion-sg", SecurityGroupId := "sg-1" }, by decide, rfl⟩
  have h2 := (ensure_operations_idempotent sampleState "bastion-1" "vpc-1" "sg-1" "img"
      "vsw" "z" "ecs.t6" "dXNlcg==").2.2.1
    ⟨{ InstanceName := "bastion-1", InstanceId := "i-1", Status := "Running",
       PrivateIpAddress := ["10.0.0.5"] }, by decide, rfl⟩
  ⟨⟨h1.2.1, h1.1⟩, ⟨h2.2.1, h2.1⟩⟩

/-! ## Instance-type fallback (C7) -/

/-- C7: when both probed core counts report no `"Available"` nested
status, the resolved type is the name of the first machine type of the
cloud profile, and an empty machine-type list is a configuration
error. -/
theorem instanceType_fallback_spec :
    ∀ (σ : Type) (c : ECS σ) (s : σ) (zoneID : String) (machineTypes : List MachineType)
      (r1 r2 : Option InstanceTypeInfo),
      c.getInstanceType s 1 zoneID = .ok r1 →
      c.getInstanceType s 2 zoneID = .ok r2 →
      probeValue r1 = none →
      probeValue r2 = none →
      (machineTypes = [] →
        determineInstanceTypeId c s zoneID machineTypes =
          .error "failed to determine instanceTypeId from cloud profile as fallback. Machine types missing from cloud profile") ∧
      (∀ mt rest, machineTypes = mt :: rest →
        determineInstanceTypeId c s zoneID machineTypes = .ok mt.Name) := by
  intro σ c s zoneID machineTypes r1 r2 h1 h2 hp1 hp2
  have hloop : bastionInstanceTypeLoop c s zoneID = .ok "" := by
    simp [bastionInstanceTypeLoop, h1, h2, hp1, hp2]
  constructor
  · intro hmt
    simp [determineInstanceTypeId, hloop, hmt]
  · intro mt rest hmt
    simp [determineInstanceTypeId, hloop, hmt]

/-- A client with no available instance type in either probe. -/
def noTypeClient : ECS Unit :=
  mkECS (.ok (some { Instance := [] })) []
    (.ok (some { SecurityGroup := [] })) "sg-0" (fun _ => .ok none)

/-- C7 witness: with no available probed type and cloud-profile
machine types `["m.small", "m.large"]` the resolved type is
`"m.small"`; with an empty machine-type list the call errors. -/
theorem instanceType_fallback_spec_witness :
    determineInstanceTypeId noTypeClient () "zone-a"
        [{ Name := "m.small" }, { Name := "m.large" }] = .ok "m.small" ∧
    determineInstanceTypeId noTypeClient () "zone-a" [] =
      .error "failed to determine instanceTypeId from cloud profile as fallback. Machine types missing from cloud profile" :=
  ⟨(instanceType_fallback_spec Unit noTypeClient () "zone-a"
      [{ Name := "m.small" }, { Name := "m.large" }] none none rfl rfl rfl rfl).2
      { Name := "m.small" } [{ Name := "m.large" }] rfl,
   (instanceType_fallback_spec Unit noTypeClient () "zone-a" [] none none
      rfl rfl rfl rfl).1 rfl⟩

/-! ## Endpoint step (C8) -/

/-- C8: at the endpoint step after allocating the public address — an
instance not found (nil response or empty list) or not Running is an
error; a Running instance whose constructed endpoint pair is not
Ready is a 5-second retry signal with the no-endpoint cause; a Ready
pair is published. -/
theorem endpoints_step_spec :
    ∀ (σ : Type) (c : ECS σ) (s : σ) (name ip : String),
      (c.getInstances s name = .ok none →
        reconcileEndpointsStep c s name ip = .fail "compute instance can't be nil") ∧
      (∀ resp, c.getInstances s name = .ok (some resp) →
        (resp.Instance.head? = none →
          reconcileEndpointsStep c s name ip = .fail "compute instance not ready yet") ∧
        (∀ inst, resp.Instance.head? = some inst →
          (inst.Status ≠ "Running" →
            reconcileEndpointsStep c s name ip = .fail "compute instance not ready yet") ∧
          (inst.Status = "Running" →
            ∀ firstIP, inst.PrivateIpAddress.head? = some firstIP →
              (Ready (some { privateEp := addressToIngress none (some firstIP),
                             publicEp := addressToIngress none (some ip) }) = false →
                reconcileEndpointsStep c s name ip =
                  .retryAfter 5 "bastion instance has no public/private endpoints yet") ∧
              (Ready (some { privateEp := addressToIngress none (some firstIP),
                             publicEp := addressToIngress none (some ip) }) = true →
                reconcileEndpointsStep c s name ip =
                  .publishEndpoint (addressToIngress none (some ip)))))) := by
  intro σ c s name ip
  constructor
  · intro hnil
    simp [reconcileEndpointsStep, getInstanceEndpoints, hnil]
  · intro resp hresp
    constructor
    · intro hempty
      simp [reconcileEndpointsStep, getInstanceEndpoints, hresp, hempty]
    · intro inst hinst
      constructor
      · intro hstatus
        simp [reconcileEndpointsStep, getInstanceEndpoints, hresp, hinst,
          bne_iff_ne.mpr hstatus]
      · intro hrunning firstIP hip
        constructor
        · intro hnotReady
          simp [reconcileEndpointsStep, getInstanceEndpoints, hresp, hinst, hrunning,
            hip, hnotReady]
        · intro hReady
          simp [reconcileEndpointsStep, getInstanceEndpoints, hresp, hinst, hrunning,
            hip, hReady]

/-- A Running bastion instance carrying a private IP. -/
def runningInstance : Instance :=
  { InstanceName := "bastion-1", InstanceId := "i-1", Status := "Running",
    PrivateIpAddress := ["10.0.0.5"] }

/-- A client whose instance lookup finds `runningInstance`. -/
def runningClient : ECS Unit :=
  mkECS (.ok (some { Instance := [runningInstance] })) []
    (.ok (some { SecurityGroup := [] })) "sg-0" (fun _ => .ok none)

/-- C8 witness: the spec's end-to-end pass 3 — a Running instance with
private IP `10.0.0.5` and public IP `198.51.100.9` publishes the
public endpoint. -/
theorem endpoints_step_spec_witness :
    reconcileEndpointsStep runningClient () "bastion-1" "198.51.100.9" =
      .publishEndpoint (addressToIngress none (some "198.51.100.9")) :=
  (((endpoints_step_spec Unit runningClient () "bastion-1" "198.51.100.9").2
      { Instance := [runningInstance] } rfl).2 runningInstance rfl).2 rfl "10.0.0.5"
    rfl |>.2 rfl

/-! ## Status publication frame (C9) -/

/-- C9: the status publication patch of a completed pass writes at
most the `Ingress` (public endpoint) field of the persisted status:
every other field keeps its persisted value, `Ingress` becomes the
published endpoint when it differs from the in-memory base, and when
it does not differ the persisted status is untouched entirely. -/
theorem status_patch_frame :
    ∀ (base : BastionStatus) (publicEp : Option LoadBalancerIngress)
      (persisted : BastionStatus),
      (applyMergePatch (publishStatus base publicEp) persisted).Conditions =
        persisted.Conditions ∧
      (applyMergePatch (publishStatus base publicEp) persisted).LastError =
        persisted.LastError ∧
      (applyMergePatch (publishStatus base publicEp) persisted).LastOperation =
        persisted.LastOperation ∧
      (applyMergePatch (publishStatus base publicEp) persisted).ObservedGeneration =
        persisted.ObservedGeneration ∧
      (applyMergePatch (publishStatus base publicEp) persisted).ProviderStatus =
        persisted.ProviderStatus ∧
      (base.Ingress ≠ publicEp →
        (applyMergePatch (publishStatus base publicEp) persisted).Ingress = publicEp) ∧
      (base.Ingress = publicEp →
        applyMergePatch (publishStatus base publicEp) persisted = persisted) := by
  intro base publicEp persisted
  refine ⟨?_, ?_, ?_, ?_, ?_, ?_, ?_⟩ <;>
    simp [applyMergePatch, publishStatus, computeMergeFrom]
  · intro hne
    simp [hne]
  · intro heq
    simp [heq]

/-- C9 witness: publishing public IP `198.51.100.9` over a persisted
status leaves the persisted conditions untouched and sets the
persisted ingress. -/
theorem status_patch_frame_witness :
    (applyMergePatch
        (publishStatus
          { Ingress := none, Conditions := [], LastError := none, LastOperation := none,
            ObservedGeneration := none, ProviderStatus := none }
          (some { Hostname := "", IP := "198.51.100.9" }))
        { Ingress := none, Conditions := ["Ready"], LastError := some "err",
          LastOperation := some "reconcile", ObservedGeneration := some 4,
          ProviderStatus := some "ps" }).Conditions = ["Ready"] ∧
    (applyMergePatch
        (publishStatus
          { Ingress := none, Conditions := [], LastError := none, LastOperation := none,
            ObservedGeneration := none, ProviderStatus := none }
          (some { Hostname := "", IP := "198.51.100.9" }))
        { Ingress := none, Conditions := ["Ready"], LastError := some "err",
          LastOperation := some "reconcile", ObservedGeneration := some 4,
          ProviderStatus := some "ps" }).Ingress =
      some { Hostname := "", IP := "198.51.100.9" } :=
  have h := status_patch_frame
    { Ingress := none, Conditions := [], LastError := none, LastOperation := none,
      ObservedGeneration := none, ProviderStatus := none }
    (some { Hostname := "", IP := "198.51.100.9" })
    { Ingress := none, Conditions := ["Ready"], LastError := some "err",
      LastOperation := some "reconcile", ObservedGeneration := some 4,
      ProviderStatus := some "ps" }
  ⟨h.1, h.2.2.2.2.2.1 (by simp)⟩

/-! ## Unguarded indexing (C10) -/

/-- A Running instance reporting no private IP: a provider response on
which line 210 panics. -/
def runningNoIpInstance : Instance :=
  { InstanceName := "bastion-1", InstanceId := "i-1", Status := "Running",
    PrivateIpAddress := [] }

/-- A client whose instance lookup finds `runningNoIpInstance`. -/
def noIpClient : ECS Unit :=
  mkECS (.ok (some { Instance := [runningNoIpInstance] })) []
    (.ok (some { SecurityGroup := [] })) "sg-0" (fun _ => .ok none)

/-- C10: there are provider responses on which the unguarded list
indexing panics — a Running instance with an empty private-IP list
(line 210) and a creation response with an empty instance-id set
(line 240) — and under the preconditions that a Running instance
reports at least one private IP and that a successful creation
response carries at least one id, the index-panic branch of either
function is unreachable. -/
theorem unguarded_index_preconditions :
    getInstanceEndpoints noIpClient () "bastion-1" "198.51.100.9" =
      .crash "runtime error: index out of range" ∧
    (ensureComputeInstance emptyClient () "bastion-1" "sg-1" "img" "vsw" "z" "ecs.t6"
        "dXNlcg==").2.2 = .crash "runtime error: index out of range" ∧
    (∀ (σ : Type) (c : ECS σ) (s : σ) (name ip : String),
      (∀ resp inst, c.getInstances s name = .ok (some resp) →
        resp.Instance.head? = some inst → inst.Status = "Running" →
        inst.PrivateIpAddress ≠ []) →
      ∀ m, getInstanceEndpoints c s name ip ≠ .crash m) ∧
    (∀ (σ : Type) (c : ECS σ) (s : σ)
        (name sgID imgID vswID zoneID typeID userData : String),
      (∀ r, (c.createInstances s name sgID imgID vswID zoneID typeID userData).2 = .ok r →
        r.InstanceIdSet ≠ []) →
      (ensureComputeInstance c s name sgID imgID vswID zoneID typeID userData).2.2 ≠
        .crash "runtime error: index out of range") := by
  refine ⟨rfl, rfl, ?_, ?_⟩
  · intro σ c s name ip hpre m hcrash
    cases hg : c.getInstances s name with
    | error e => simp [getInstanceEndpoints, hg] at hcrash
    | ok o =>
      cases o with
      | none => simp [getInstanceEndpoints, hg] at hcrash
      | some resp =>
        cases hh : resp.Instance.head? with
        | none => simp [getInstanceEndpoints, hg, hh] at hcrash
        | some inst =>
          by_cases hs : inst.Status = "Running"
          · have hne := hpre resp inst hg hh hs
            cases hip : inst.PrivateIpAddress with
            | nil => exact hne hip
            | cons a l =>
              simp [getInstanceEndpoints, hg, hh, hs, hip] at hcrash
          · simp [getInstanceEndpoints, hg, hh, bne_iff_ne.mpr hs] at hcrash
  · intro σ c s name sgID imgID vswID zoneID typeID userData hpre hcrash
    cases hg : c.getInstances s name with
    | error e => simp [ensureComputeInstance, hg] at hcrash
    | ok o =>
      cases o with
      | none =>
        simp [ensureComputeInstance, hg] at hcrash
      | some resp =>
        cases hcr : c.createInstances s name sgID imgID vswID zoneID typeID userData with
        | mk s2 created =>
          cases hh : resp.Instance.head? with
          | none =>
            cases created with
            | error e => simp [ensureComputeInstance, hg, hh, hcr] at hcrash
            | ok r =>
              have hne := hpre r (by rw [hcr])
              cases hid : r.InstanceIdSet with
              | nil => exact hne hid
              | cons a l =>
                simp [ensureComputeInstance, hg, hh, hcr, hid] at hcrash
          | some inst =>
            by_cases hn : inst.InstanceName = name
            · simp [ensureComputeInstance, hg, hh, hn] at hcrash
            · cases created with
              | error e =>
                simp [ensureComputeInstance, hg, hh, hn, hcr] at hcrash
              | ok r =>
                have hne := hpre r (by rw [hcr])
                cases hid : r.InstanceIdSet with
                | nil => exact hne hid
                | cons a l =>
                  simp [ensureComputeInstance, hg, hh, hn, hcr, hid] at hcrash

/-- C10 witness: a Running instance with private IP `10.0.0.5` never
reaches the index panic, and neither does a creation whose response
carries the id `i-9`. -/
theorem unguarded_index_preconditions_witness :
    getInstanceEndpoints runningClient () "bastion-1" "198.51.100.9" ≠
      .crash "runtime error: index out of range" ∧
    (ensureComputeInstance (mkECS (.ok (some { Instance := [] })) ["i-9"]
        (.ok (some { SecurityGroup := [] })) "sg-0" (fun _ => .ok none)) ()
        "bastion-1" "sg-1" "img" "vsw" "z" "ecs.t6" "dXNlcg==").2.2 ≠
      .crash "runtime error: index out of range" :=
  ⟨unguarded_index_preconditions.2.2.1 Unit runningClient () "bastion-1" "198.51.100.9"
      (by
        intro resp inst h1 h2 h3
        simp only [runningClient, mkECS, Except.ok.injEq, Option.some.injEq] at h1
        subst h1
        simp only [List.head?_cons, Option.some.injEq] at h2
        subst h2
        simp [runningInstance])
      "runtime error: index out of range",
   unguarded_index_preconditions.2.2.2 Unit
      (mkECS (.ok (some { Instance := [] })) ["i-9"]
        (.ok (some { SecurityGroup := [] })) "sg-0" (fun _ => .ok none)) ()
      "bastion-1" "sg-1" "img" "vsw" "z" "ecs.t6" "dXNlcg=="
      (by
        intro r hr
        simp only [mkECS, Except.ok.injEq] at hr
        subst hr
        simp)⟩

end AlicloudBastion







